import Mathlib

/-!
Shallow embedding of the weather-lookup service (Next.js API route) and its
display client.  The route keeps an in-memory cache keyed by
`"weather_" ++ city`, tries a fixed ordered list of provider adapters on a
cache miss, and normalizes each upstream payload into one `WeatherData`
shape.  Numbers are modelled as rationals; `Math.round` is modelled as
`jsRound` (round half toward +infinity, as in JavaScript).
-/

deriving instance DecidableEq for Except

namespace Weather

/-- JavaScript `Math.round`: nearest integer, ties toward +infinity. -/
def jsRound (q : ℚ) : ℤ := ⌊q + 1/2⌋

/-- The `main` block of the normalized weather payload. -/
structure WeatherMain where
  temp : ℚ
  feels_like : ℚ
  humidity : ℚ
  temp_min : ℚ
  temp_max : ℚ
deriving Repr, DecidableEq

/-- One element of the `weather` array of the normalized payload. -/
structure WeatherCond where
  main : String
  description : String
  icon : String
deriving Repr, DecidableEq

/-- The `wind` block of the normalized payload. -/
structure WindInfo where
  speed : ℚ
deriving Repr, DecidableEq

/-- The normalized snapshot every adapter produces (`WeatherData` in the
source). -/
structure WeatherData where
  name : String
  main : WeatherMain
  weather : List WeatherCond
  wind : WindInfo
deriving Repr, DecidableEq

/-- A cache entry: snapshot plus the epoch-milliseconds timestamp recorded
at `cache.set` time (`CacheData` in the source). -/
structure CacheData where
  data : WeatherData
  timestamp : ℤ
deriving Repr, DecidableEq

/-- The in-memory cache `Map<string, CacheData>`, as a partial map. -/
def Cache : Type := String → Option CacheData

/-- `cache.set key value`. -/
def Cache.set (c : Cache) (key : String) (v : CacheData) : Cache :=
  fun k => if k = key then some v else c k

/-- `CACHE_DURATION = 5 * 60 * 1000` (five minutes, in milliseconds). -/
def CACHE_DURATION : ℤ := 5 * 60 * 1000

/-- Environment variables read by the keyed adapters. -/
structure Env where
  OPENWEATHER_API_KEY : Option String
  WEATHERAPI_KEY : Option String
deriving Repr, DecidableEq

/-- Outcome of the HTTP request an adapter would make: a parsed 2xx body,
a non-success status (`!response.ok`), or an abort/timeout. -/
inductive HttpResult (α : Type) where
  | ok : α → HttpResult α
  | httpError : Nat → HttpResult α
  | timeout : HttpResult α
deriving Repr, DecidableEq

/-- Parsed upstream body of the OpenWeatherMap current-weather endpoint
(the fields the adapter reads). -/
structure OWResponse where
  name : String
  temp : ℚ
  feels_like : ℚ
  humidity : ℚ
  temp_min : ℚ
  temp_max : ℚ
  weatherMain : String
  weatherDescription : String
  weatherIcon : String
  windSpeed : ℚ
deriving Repr, DecidableEq

/-- Parsed upstream body of the WeatherAPI current-weather endpoint
(the fields the adapter reads). -/
structure WAResponse where
  locationName : String
  temp_c : ℚ
  feelslike_c : ℚ
  humidity : ℚ
  conditionText : String
  conditionIcon : String
  wind_kph : ℚ
deriving Repr, DecidableEq

/-- Parsed upstream body of the wttr.in `format=j1` endpoint.  Every field
the adapter reads sits behind an optional-chaining / `||`-default chain in
the source, so each is modelled as an `Option` (already coerced through
`parseFloat` where numeric). -/
structure WttrResponse where
  areaName : Option String
  temp_C : Option ℚ
  FeelsLikeC : Option ℚ
  humidity : Option ℚ
  mintempC : Option ℚ
  maxtempC : Option ℚ
  weatherDesc : Option String
  weatherIconUrl : Option String
  windspeedKmph : Option ℚ
deriving Repr, DecidableEq

/-- Result of invoking one adapter: the settled promise, plus whether the
adapter reached its network call (`fetchWithTimeout`). -/
structure AdapterOutcome where
  result : Except String WeatherData
  networkCalled : Bool
deriving Repr, DecidableEq

/-- The object literal `getWeatherFromOpenWeather` returns on success:
temperatures `Math.round`ed, humidity passed through, wind already m/s and
rounded to one decimal. -/
def owSnapshot (data : OWResponse) : WeatherData :=
  { name := data.name
    main :=
      { temp := (jsRound data.temp : ℚ)
        feels_like := (jsRound data.feels_like : ℚ)
        humidity := data.humidity
        temp_min := (jsRound data.temp_min : ℚ)
        temp_max := (jsRound data.temp_max : ℚ) }
    weather :=
      [{ main := data.weatherMain
         description := data.weatherDescription
         icon := "https://openweathermap.org/img/wn/" ++ data.weatherIcon ++ "@2x.png" }]
    wind := { speed := (jsRound (data.windSpeed * 10) : ℚ) / 10 } }

/-- `getWeatherFromOpenWeather`: credential guard, then HTTP, then
normalization. -/
def getWeatherFromOpenWeather (env : Env) (net : HttpResult OWResponse) :
    AdapterOutcome :=
  match env.OPENWEATHER_API_KEY with
  | none => ⟨.error "OpenWeather API密钥未配置", false⟩
  | some _ =>
    match net with
    | .timeout => ⟨.error "aborted", true⟩
    | .httpError status => ⟨.error ("OpenWeather API错误: " ++ toString status), true⟩
    | .ok data => ⟨.ok (owSnapshot data), true⟩

/-- The object literal `getWeatherFromWeatherAPI` returns on success:
min/max synthesized as current ± 2 °C; wind converted km/h → m/s by the
factor 0.27778 and rounded to one decimal. -/
def waSnapshot (data : WAResponse) : WeatherData :=
  { name := data.locationName
    main :=
      { temp := (jsRound data.temp_c : ℚ)
        feels_like := (jsRound data.feelslike_c : ℚ)
        humidity := data.humidity
        temp_min := (jsRound (data.temp_c - 2) : ℚ)
        temp_max := (jsRound (data.temp_c + 2) : ℚ) }
    weather :=
      [{ main := data.conditionText
         description := data.conditionText
         icon := "https:" ++ data.conditionIcon }]
    wind := { speed := (jsRound (data.wind_kph * (27778 / 100000) * 10) : ℚ) / 10 } }

/-- `getWeatherFromWeatherAPI`: credential guard, then HTTP, then
normalization. -/
def getWeatherFromWeatherAPI (env : Env) (net : HttpResult WAResponse) :
    AdapterOutcome :=
  match env.WEATHERAPI_KEY with
  | none => ⟨.error "WeatherAPI密钥未配置", false⟩
  | some _ =>
    match net with
    | .timeout => ⟨.error "aborted", true⟩
    | .httpError status => ⟨.error ("WeatherAPI错误: " ++ toString status), true⟩
    | .ok data => ⟨.ok (waSnapshot data), true⟩

/-- The object literal `getWeatherFromWttrIn` returns on success: the
nested payload normalized with `|| 0` / `|| current.temp_C || 0`
defaulting, `Math.round` on temperatures, and km/h → m/s conversion
rounded to one decimal. -/
def wttrSnapshot (city : String) (data : WttrResponse) : WeatherData :=
  { name := data.areaName.getD city
    main :=
      { temp := (jsRound (data.temp_C.getD 0) : ℚ)
        feels_like := (jsRound (data.FeelsLikeC.getD 0) : ℚ)
        humidity := data.humidity.getD 0
        temp_min := (jsRound ((data.mintempC <|> data.temp_C).getD 0) : ℚ)
        temp_max := (jsRound ((data.maxtempC <|> data.temp_C).getD 0) : ℚ) }
    weather :=
      [{ main := data.weatherDesc.getD "未知"
         description := data.weatherDesc.getD "未知天气"
         icon := data.weatherIconUrl.getD "" }]
    wind :=
      { speed := (jsRound ((data.windspeedKmph.getD 0) * (27778 / 100000) * 10) : ℚ) / 10 } }

/-- `getWeatherFromWttrIn`: keyless; HTTP, then normalization. -/
def getWeatherFromWttrIn (city : String) (net : HttpResult WttrResponse) :
    AdapterOutcome :=
  match net with
  | .timeout => ⟨.error "aborted", true⟩
  | .httpError status => ⟨.error ("wttr.in API错误: " ++ toString status), true⟩
  | .ok data => ⟨.ok (wttrSnapshot city data), true⟩

/-- Identifier of a provider adapter, used to record invocation order. -/
inductive ProviderId where
  | openWeather
  | weatherAPI
  | wttrIn
deriving Repr, DecidableEq

/-- The parsed upstream responses the endpoint of each provider would serve for
the requested city during this lookup. -/
structure NetworkWorld where
  ow : HttpResult OWResponse
  wa : HttpResult WAResponse
  wttr : HttpResult WttrResponse
deriving Repr, DecidableEq

/-- Dispatch an adapter by identifier, as `await api(city)` does through
the function values stored in the `apis` array. -/
def runAdapter (p : ProviderId) (city : String) (env : Env)
    (net : NetworkWorld) : AdapterOutcome :=
  match p with
  | .openWeather => getWeatherFromOpenWeather env net.ow
  | .weatherAPI => getWeatherFromWeatherAPI env net.wa
  | .wttrIn => getWeatherFromWttrIn city net.wttr

/-- The fixed, ordered fallback chain built in the handler:
`[getWeatherFromOpenWeather, getWeatherFromWttrIn]`. -/
def apis : List ProviderId := [.openWeather, .wttrIn]

/-- The `for (const api of apis)` loop: invoke adapters in order, stop at
the first success, record which adapters were invoked. -/
def tryAdapters (city : String) (env : Env) (net : NetworkWorld) :
    List ProviderId → Option WeatherData × List ProviderId
  | [] => (none, [])
  | p :: rest =>
    match (runAdapter p city env net).result with
    | .ok d => (some d, [p])
    | .error _ =>
      let r := tryAdapters city env net rest
      (r.1, p :: r.2)

/-- A response produced by the route handler: a 200 JSON snapshot, or an
error JSON with its HTTP status. -/
inductive ApiResponse where
  | okData : WeatherData → ApiResponse
  | errorJson : String → Nat → ApiResponse
deriving Repr, DecidableEq

/-- The observable effect of one `GET` invocation: the response, the cache
state afterwards, and the adapters invoked, in order. -/
structure GetResult where
  response : ApiResponse
  cache : Cache
  providersInvoked : List ProviderId

/-- The route handler `GET`.  `city` is `searchParams.get("city")` in the source (`none`
for a missing parameter); `now` is `Date.now()` at the cache check and
`nowAtSet` is `Date.now()` at the later `cache.set`; `env` and `net` fix
the environment variables and the upstream responses for this request. -/
def GET (city : Option String) (now nowAtSet : ℤ) (env : Env)
    (net : NetworkWorld) (cache : Cache) : GetResult :=
  match city with
  | none => ⟨.errorJson "城市名称不能为空" 400, cache, []⟩
  | some c =>
    if c = "" then ⟨.errorJson "城市名称不能为空" 400, cache, []⟩
    else
      let cacheKey := "weather_" ++ c
      let hit :=
        match cache cacheKey with
        | some cached => if now - cached.timestamp < CACHE_DURATION then some cached.data else none
        | none => none
      match hit with
      | some d => ⟨.okData d, cache, []⟩
      | none =>
        let r := tryAdapters c env net apis
        match r.1 with
        | some d => ⟨.okData d, cache.set cacheKey ⟨d, nowAtSet⟩, r.2⟩
        | none => ⟨.errorJson "所有天气服务暂时不可用，请稍后重试" 503, cache, r.2⟩

/-! ### Concrete fixtures used by witnesses and counterexamples -/

/-- The cache at process start: no entries. -/
def emptyCache : Cache := fun _ => none

/-- Environment with neither API key configured. -/
def noKeys : Env := ⟨none, none⟩

/-- Environment with both API keys configured. -/
def bothKeys : Env := ⟨some "k1", some "k2"⟩

/-- Every upstream request aborts on timeout. -/
def allFailNet : NetworkWorld := ⟨.timeout, .timeout, .timeout⟩

/-- A sample normalized snapshot. -/
def sampleSnap : WeatherData :=
  ⟨"Beijing", ⟨20, 19, 55, 18, 23⟩, [⟨"Clear", "clear sky", ""⟩], ⟨7/2⟩⟩

/-- A cache holding one entry for the city `Beijing`, fetched at `ts`. -/
def cacheWithBeijing (ts : ℤ) : Cache :=
  fun k => if k = "weather_Beijing" then some ⟨sampleSnap, ts⟩ else none

/-- A sample wttr.in payload. -/
def sampleWttr : WttrResponse :=
  ⟨some "Berlin", some (205/10), some 21, some 150, some 18, some 23,
    some "Sunny", some "iconurl", some 36⟩

/-- A sample OpenWeatherMap payload whose humidity is out of range. -/
def sampleOW : OWResponse :=
  ⟨"London", 123/10, 117/10, 150, 102/10, 139/10, "Clouds", "overcast clouds",
    "04d", 412/100⟩

/-- A sample WeatherAPI payload with `wind_kph = 36`. -/
def sampleWA : WAResponse :=
  ⟨"Paris", 155/10, 149/10, 150, "Sunny", "//icon", 36⟩

/-! ### Helper lemmas about the fallback loop -/

/-- Every adapter the loop records as invoked comes from the list it
iterates over. -/
theorem tryAdapters_invoked_mem (c : String) (env : Env) (net : NetworkWorld) :
    ∀ (l : List ProviderId) (p : ProviderId),
      p ∈ (tryAdapters c env net l).2 → p ∈ l := by
  intro l
  induction l with
  | nil => intro p hp; simp [tryAdapters] at hp
  | cons q rest ih =>
    intro p hp
    simp only [tryAdapters] at hp
    cases h : (runAdapter q c env net).result with
    | ok d =>
      rw [h] at hp
      simp at hp
      simp [hp]
    | error e =>
      rw [h] at hp
      simp at hp
      rcases hp with hp | hp
      · simp [hp]
      · exact List.mem_cons_of_mem _ (ih p hp)

/-- On a nonempty adapter list the loop invokes at least one adapter. -/
theorem tryAdapters_cons_ne_nil (c : String) (env : Env) (net : NetworkWorld)
    (q : ProviderId) (rest : List ProviderId) :
    (tryAdapters c env net (q :: rest)).2 ≠ [] := by
  simp only [tryAdapters]
  cases h : (runAdapter q c env net).result <;> simp [h]

/-! ### Claims -/

/-- C1 (amended): a missing city parameter or the exact empty string is
rejected with the 400 `InvalidInput` response, with no adapter invoked and
the cache untouched.  (Whitespace-only input is not rejected: see the
counterexample.) -/
theorem C1_empty_rejected (city : Option String) (now nowAtSet : ℤ)
    (env : Env) (net : NetworkWorld) (cache : Cache)
    (h : city = none ∨ city = some "") :
    (GET city now nowAtSet env net cache).response = .errorJson "城市名称不能为空" 400 ∧
    (GET city now nowAtSet env net cache).providersInvoked = [] ∧
    (GET city now nowAtSet env net cache).cache = cache := by
  rcases h with h | h <;> subst h <;> exact ⟨rfl, rfl, rfl⟩

/-- C1 witness: the empty-string city is rejected with 400, no adapters, no
cache change. -/
theorem C1_empty_rejected_witness :
    ((some "" : Option String) = none ∨ (some "" : Option String) = some "") ∧
    ((GET (some "") 0 0 noKeys allFailNet emptyCache).response
        = .errorJson "城市名称不能为空" 400 ∧
      (GET (some "") 0 0 noKeys allFailNet emptyCache).providersInvoked = [] ∧
      (GET (some "") 0 0 noKeys allFailNet emptyCache).cache = emptyCache) :=
  ⟨Or.inr rfl, C1_empty_rejected (some "") 0 0 noKeys allFailNet emptyCache (Or.inr rfl)⟩

/-- C1 counterexample: the whitespace-only city `" "` is truthy, so the
handler does not return 400; it proceeds past the guard and invokes the
adapters (here both fail, yielding 503). -/
theorem C1_counterexample :
    (GET (some " ") 0 0 noKeys allFailNet emptyCache).response
        ≠ .errorJson "城市名称不能为空" 400 ∧
    (GET (some " ") 0 0 noKeys allFailNet emptyCache).providersInvoked ≠ [] := by
  constructor <;> decide

/-- C2: a fresh cache entry (strictly inside the 5-minute window) is served
as-is: the response is the cached snapshot, the cache is not mutated, and
no adapter is invoked. -/
theorem C2_cache_hit (c : String) (hc : c ≠ "") (now nowAtSet : ℤ)
    (env : Env) (net : NetworkWorld) (cache : Cache) (entry : CacheData)
    (hentry : cache ("weather_" ++ c) = some entry)
    (hfresh : now - entry.timestamp < CACHE_DURATION) :
    (GET (some c) now nowAtSet env net cache).response = .okData entry.data ∧
    (GET (some c) now nowAtSet env net cache).cache = cache ∧
    (GET (some c) now nowAtSet env net cache).providersInvoked = [] := by
  refine ⟨?_, ?_, ?_⟩ <;> simp [GET, hc, hentry, hfresh]

/-- C2 witness: a lookup for `Beijing` one second after the entry was
cached returns the cached snapshot with no adapter call and no mutation. -/
theorem C2_cache_hit_witness :
    ("Beijing" ≠ "") ∧
    cacheWithBeijing 0 ("weather_" ++ "Beijing") = some ⟨sampleSnap, 0⟩ ∧
    ((1000 : ℤ) - (0 : ℤ) < CACHE_DURATION) ∧
    ((GET (some "Beijing") 1000 1000 noKeys allFailNet (cacheWithBeijing 0)).response
        = .okData sampleSnap ∧
      (GET (some "Beijing") 1000 1000 noKeys allFailNet (cacheWithBeijing 0)).cache
        = cacheWithBeijing 0 ∧
      (GET (some "Beijing") 1000 1000 noKeys allFailNet (cacheWithBeijing 0)).providersInvoked
        = []) :=
  ⟨by decide, rfl, by decide,
    C2_cache_hit "Beijing" (by decide) 1000 1000 noKeys allFailNet
      (cacheWithBeijing 0) ⟨sampleSnap, 0⟩ rfl (by decide)⟩

/-- C3 (amended): a cache entry is stale and ignored exactly when
`now - fetchedAtEpochMs ≥ 5 minutes`: strictly inside the window the entry
is served with no adapter call, and from exactly 5 minutes on (hence also
at 5 minutes + 1 ms) at least one adapter is invoked. -/
theorem C3_staleness_boundary (c : String) (hc : c ≠ "") (now nowAtSet : ℤ)
    (env : Env) (net : NetworkWorld) (cache : Cache) (entry : CacheData)
    (hentry : cache ("weather_" ++ c) = some entry) :
    (now - entry.timestamp < CACHE_DURATION →
      (GET (some c) now nowAtSet env net cache).response = .okData entry.data ∧
      (GET (some c) now nowAtSet env net cache).providersInvoked = []) ∧
    (CACHE_DURATION ≤ now - entry.timestamp →
      (GET (some c) now nowAtSet env net cache).providersInvoked ≠ []) := by
  constructor
  · intro hfresh
    constructor <;> simp [GET, hc, hentry, hfresh]
  · intro hstale
    have hnot : ¬ now - entry.timestamp < CACHE_DURATION := not_lt.mpr hstale
    simp only [GET, hc, hentry, hnot, if_neg, if_false]
    cases h : (tryAdapters c env net apis).1 <;>
      simp [h, apis, tryAdapters_cons_ne_nil]

/-- C3 witness: at exactly the 5-minute boundary the stale branch of the
boundary theorem applies and an adapter is invoked. -/
theorem C3_staleness_boundary_witness :
    ("Beijing" ≠ "") ∧
    cacheWithBeijing 0 ("weather_" ++ "Beijing") = some ⟨sampleSnap, 0⟩ ∧
    CACHE_DURATION ≤ CACHE_DURATION - (0 : ℤ) ∧
    (GET (some "Beijing") CACHE_DURATION 0 noKeys allFailNet
        (cacheWithBeijing 0)).providersInvoked ≠ [] :=
  ⟨by decide, rfl, by decide,
    (C3_staleness_boundary "Beijing" (by decide) CACHE_DURATION 0 noKeys
        allFailNet (cacheWithBeijing 0) ⟨sampleSnap, 0⟩ rfl).2 (by decide)⟩

/-- C3 counterexample: a lookup at exactly 5 minutes after the entry was
fetched is not served from the cache — adapters are invoked — contradicting
the claim that exactly-5-minutes is still a cache hit. -/
theorem C3_counterexample :
    (GET (some "Beijing") CACHE_DURATION 0 noKeys allFailNet
        (cacheWithBeijing 0)).providersInvoked ≠ [] ∧
    (GET (some "Beijing") CACHE_DURATION 0 noKeys allFailNet
        (cacheWithBeijing 0)).response ≠ .okData sampleSnap := by
  constructor <;> decide

/-- Upstream world where only wttr.in answers. -/
def wttrOnlyNet : NetworkWorld := ⟨.timeout, .timeout, .ok sampleWttr⟩

/-- Upstream world where only OpenWeatherMap answers. -/
def owOnlyNet : NetworkWorld := ⟨.ok sampleOW, .timeout, .timeout⟩

/-- On a cache miss (no entry, or a stale one) the outcome of the handler is
determined by the fallback loop over `apis`. -/
theorem GET_miss (c : String) (hc : c ≠ "") (now nowAtSet : ℤ) (env : Env)
    (net : NetworkWorld) (cache : Cache)
    (hmiss : ∀ entry, cache ("weather_" ++ c) = some entry →
      CACHE_DURATION ≤ now - entry.timestamp) :
    GET (some c) now nowAtSet env net cache =
      (match (tryAdapters c env net apis).1 with
       | some d =>
          ⟨.okData d, cache.set ("weather_" ++ c) ⟨d, nowAtSet⟩,
            (tryAdapters c env net apis).2⟩
       | none =>
          ⟨.errorJson "所有天气服务暂时不可用，请稍后重试" 503, cache,
            (tryAdapters c env net apis).2⟩) := by
  cases hcache : cache ("weather_" ++ c) with
  | none => simp [GET, hc, hcache]
  | some entry =>
    have hnot : ¬ now - entry.timestamp < CACHE_DURATION :=
      not_lt.mpr (hmiss entry hcache)
    simp [GET, hc, hcache, hnot]

/-- C4: when the first adapter (OpenWeatherMap) fails and the second
(wttr.in) succeeds on a cache miss, the handler returns the second
adapter, wttr.in, supplies the snapshot that is returned and written into
the cache at the key of the city (not anything from the first adapter) — overwriting any prior stale entry — and the
loop stops right after the success. -/
theorem C4_fallback_second_adapter (c : String) (hc : c ≠ "")
    (now nowAtSet : ℤ) (env : Env) (net : NetworkWorld) (cache : Cache)
    (r : WttrResponse)
    (hmiss : ∀ entry, cache ("weather_" ++ c) = some entry →
      CACHE_DURATION ≤ now - entry.timestamp)
    (hfail : ∀ d, (getWeatherFromOpenWeather env net.ow).result ≠ .ok d)
    (hok : net.wttr = .ok r) :
    (GET (some c) now nowAtSet env net cache).response
      = .okData (wttrSnapshot c r) ∧
    (GET (some c) now nowAtSet env net cache).cache ("weather_" ++ c)
      = some ⟨wttrSnapshot c r, nowAtSet⟩ ∧
    (GET (some c) now nowAtSet env net cache).providersInvoked
      = [.openWeather, .wttrIn] := by
  have htry : tryAdapters c env net apis
      = (some (wttrSnapshot c r), [.openWeather, .wttrIn]) := by
    simp only [apis, tryAdapters, runAdapter]
    cases h1 : (getWeatherFromOpenWeather env net.ow).result with
    | ok d => exact absurd h1 (hfail d)
    | error e => simp [hok, getWeatherFromWttrIn]
  rw [GET_miss c hc now nowAtSet env net cache hmiss, htry]
  exact ⟨rfl, by simp [Cache.set], rfl⟩

/-- C4 witness: with no OpenWeatherMap key and wttr.in answering, a lookup
for `Paris` on an empty cache returns and caches the wttr.in snapshot. -/
theorem C4_fallback_second_adapter_witness :
    ("Paris" ≠ "") ∧
    (∀ entry, emptyCache ("weather_" ++ "Paris") = some entry →
      CACHE_DURATION ≤ (0 : ℤ) - entry.timestamp) ∧
    (∀ d, (getWeatherFromOpenWeather noKeys wttrOnlyNet.ow).result ≠ .ok d) ∧
    wttrOnlyNet.wttr = .ok sampleWttr ∧
    ((GET (some "Paris") 0 5 noKeys wttrOnlyNet emptyCache).response
        = .okData (wttrSnapshot "Paris" sampleWttr) ∧
      (GET (some "Paris") 0 5 noKeys wttrOnlyNet emptyCache).cache
          ("weather_" ++ "Paris")
        = some ⟨wttrSnapshot "Paris" sampleWttr, 5⟩ ∧
      (GET (some "Paris") 0 5 noKeys wttrOnlyNet emptyCache).providersInvoked
        = [.openWeather, .wttrIn]) := by
  have hmiss : ∀ entry : CacheData, emptyCache ("weather_" ++ "Paris") = some entry →
      CACHE_DURATION ≤ (0 : ℤ) - entry.timestamp := by
    intro entry h
    simp [emptyCache] at h
  have hfail : ∀ d, (getWeatherFromOpenWeather noKeys wttrOnlyNet.ow).result ≠ .ok d := by
    intro d h
    simp [getWeatherFromOpenWeather, noKeys] at h
  exact ⟨by decide, hmiss, hfail, rfl,
    C4_fallback_second_adapter "Paris" (by decide) 0 5 noKeys wttrOnlyNet
      emptyCache sampleWttr hmiss hfail rfl⟩

/-- C5: when every adapter in the chain fails on a cache miss, the handler
returns the single unified 503 unavailable error and the cache is left
exactly as it was — no entry added, removed or overwritten — and no
per-provider error is surfaced in the response. -/
theorem C5_all_fail_503 (c : String) (hc : c ≠ "") (now nowAtSet : ℤ)
    (env : Env) (net : NetworkWorld) (cache : Cache)
    (hmiss : ∀ entry, cache ("weather_" ++ c) = some entry →
      CACHE_DURATION ≤ now - entry.timestamp)
    (hfail1 : ∀ d, (getWeatherFromOpenWeather env net.ow).result ≠ .ok d)
    (hfail2 : ∀ d, (getWeatherFromWttrIn c net.wttr).result ≠ .ok d) :
    (GET (some c) now nowAtSet env net cache).response
      = .errorJson "所有天气服务暂时不可用，请稍后重试" 503 ∧
    (GET (some c) now nowAtSet env net cache).cache = cache := by
  have htry : tryAdapters c env net apis
      = (none, [.openWeather, .wttrIn]) := by
    simp only [apis, tryAdapters, runAdapter]
    cases h1 : (getWeatherFromOpenWeather env net.ow).result with
    | ok d => exact absurd h1 (hfail1 d)
    | error e1 =>
      cases h2 : (getWeatherFromWttrIn c net.wttr).result with
      | ok d => exact absurd h2 (hfail2 d)
      | error e2 => rfl
  rw [GET_miss c hc now nowAtSet env net cache hmiss, htry]
  exact ⟨rfl, rfl⟩

/-- C5 witness: with no keys and all upstreams timing out, a lookup for
`Paris` on an empty cache yields the unified 503 and an unchanged cache. -/
theorem C5_all_fail_503_witness :
    ("Paris" ≠ "") ∧
    (∀ entry, emptyCache ("weather_" ++ "Paris") = some entry →
      CACHE_DURATION ≤ (0 : ℤ) - entry.timestamp) ∧
    (∀ d, (getWeatherFromOpenWeather noKeys allFailNet.ow).result ≠ .ok d) ∧
    (∀ d, (getWeatherFromWttrIn "Paris" allFailNet.wttr).result ≠ .ok d) ∧
    ((GET (some "Paris") 0 0 noKeys allFailNet emptyCache).response
        = .errorJson "所有天气服务暂时不可用，请稍后重试" 503 ∧
      (GET (some "Paris") 0 0 noKeys allFailNet emptyCache).cache = emptyCache) := by
  have hmiss : ∀ entry : CacheData, emptyCache ("weather_" ++ "Paris") = some entry →
      CACHE_DURATION ≤ (0 : ℤ) - entry.timestamp := by
    intro entry h
    simp [emptyCache] at h
  have hfail1 : ∀ d, (getWeatherFromOpenWeather noKeys allFailNet.ow).result ≠ .ok d := by
    intro d h
    simp [getWeatherFromOpenWeather, noKeys] at h
  have hfail2 : ∀ d, (getWeatherFromWttrIn "Paris" allFailNet.wttr).result ≠ .ok d := by
    intro d h
    simp [getWeatherFromWttrIn, allFailNet] at h
  exact ⟨by decide, hmiss, hfail1, hfail2,
    C5_all_fail_503 "Paris" (by decide) 0 0 noKeys allFailNet emptyCache
      hmiss hfail1 hfail2⟩

/-- C6: with its key configured, the WeatherAPI adapter converts wind from
km/h to m/s by the factor 0.27778 and rounds to one decimal; with
`wind_kph = 36` the resulting `windSpeedMps` is exactly 10.0. -/
theorem C6_wind_conversion (env : Env) (k : String)
    (r : WAResponse) (hkey : env.WEATHERAPI_KEY = some k) :
    (getWeatherFromWeatherAPI env (.ok r)).result = .ok (waSnapshot r) ∧
    (waSnapshot r).wind.speed
      = (jsRound (r.wind_kph * (27778 / 100000) * 10) : ℚ) / 10 ∧
    (r.wind_kph = 36 → (waSnapshot r).wind.speed = 10) := by
  refine ⟨by simp [getWeatherFromWeatherAPI, hkey], rfl, ?_⟩
  intro h36
  simp only [waSnapshot, h36]
  norm_num [jsRound]

/-- C6 witness: the sample WeatherAPI payload with `wind_kph = 36` yields a
snapshot whose wind speed is exactly 10 m/s. -/
theorem C6_wind_conversion_witness :
    bothKeys.WEATHERAPI_KEY = some "k2" ∧ sampleWA.wind_kph = 36 ∧
    (getWeatherFromWeatherAPI bothKeys (.ok sampleWA)).result
      = .ok (waSnapshot sampleWA) ∧
    (waSnapshot sampleWA).wind.speed = 10 :=
  ⟨rfl, rfl, (C6_wind_conversion bothKeys "k2" sampleWA rfl).1,
    (C6_wind_conversion bothKeys "k2" sampleWA rfl).2.2 rfl⟩

/-- Environment with only the WeatherAPI key configured (the
OpenWeatherMap credential is absent). -/
def onlyWAKey : Env := ⟨none, some "k2"⟩

/-- Environment with only the OpenWeatherMap key configured (the
WeatherAPI credential is absent). -/
def onlyOWKey : Env := ⟨some "k1", none⟩

/-- C7: for each keyed adapter independently, with its own environment
credential absent — whatever the other key holds — the adapter settles
immediately to its `ProviderError` with `networkCalled = false`, whatever
the upstream would have answered: the missing key merely disables that
provider. -/
theorem C7_missing_credential (env : Env) (neto : HttpResult OWResponse)
    (netw : HttpResult WAResponse) :
    (env.OPENWEATHER_API_KEY = none →
      getWeatherFromOpenWeather env neto
        = ⟨.error "OpenWeather API密钥未配置", false⟩) ∧
    (env.WEATHERAPI_KEY = none →
      getWeatherFromWeatherAPI env netw
        = ⟨.error "WeatherAPI密钥未配置", false⟩) := by
  constructor
  · intro h1
    simp [getWeatherFromOpenWeather, h1]
  · intro h2
    simp [getWeatherFromWeatherAPI, h2]

/-- C7 witness: in an environment missing only the OpenWeatherMap key the
OpenWeatherMap adapter fails immediately without a network call, and in an
environment missing only the WeatherAPI key the WeatherAPI adapter does —
each independently of the other credential. -/
theorem C7_missing_credential_witness :
    onlyWAKey.OPENWEATHER_API_KEY = none ∧
    getWeatherFromOpenWeather onlyWAKey .timeout
      = ⟨.error "OpenWeather API密钥未配置", false⟩ ∧
    onlyOWKey.WEATHERAPI_KEY = none ∧
    getWeatherFromWeatherAPI onlyOWKey .timeout
      = ⟨.error "WeatherAPI密钥未配置", false⟩ :=
  ⟨rfl, (C7_missing_credential onlyWAKey .timeout .timeout).1 rfl,
    rfl, (C7_missing_credential onlyOWKey .timeout .timeout).2 rfl⟩

/-- A successful OpenWeatherMap invocation comes from a parsed 2xx body and
returns exactly its normalization. -/
theorem getWeatherFromOpenWeather_ok (env : Env) (net : HttpResult OWResponse)
    (d : WeatherData) (h : (getWeatherFromOpenWeather env net).result = .ok d) :
    ∃ r, net = .ok r ∧ d = owSnapshot r := by
  cases hk : env.OPENWEATHER_API_KEY with
  | none => simp [getWeatherFromOpenWeather, hk] at h
  | some k =>
    cases net with
    | ok r =>
      simp only [getWeatherFromOpenWeather, hk] at h
      simp at h
      exact ⟨r, rfl, h.symm⟩
    | httpError s => simp [getWeatherFromOpenWeather, hk] at h
    | timeout => simp [getWeatherFromOpenWeather, hk] at h

/-- A successful WeatherAPI invocation comes from a parsed 2xx body and
returns exactly its normalization. -/
theorem getWeatherFromWeatherAPI_ok (env : Env) (net : HttpResult WAResponse)
    (d : WeatherData) (h : (getWeatherFromWeatherAPI env net).result = .ok d) :
    ∃ r, net = .ok r ∧ d = waSnapshot r := by
  cases hk : env.WEATHERAPI_KEY with
  | none => simp [getWeatherFromWeatherAPI, hk] at h
  | some k =>
    cases net with
    | ok r =>
      simp only [getWeatherFromWeatherAPI, hk] at h
      simp at h
      exact ⟨r, rfl, h.symm⟩
    | httpError s => simp [getWeatherFromWeatherAPI, hk] at h
    | timeout => simp [getWeatherFromWeatherAPI, hk] at h

/-- A successful wttr.in invocation comes from a parsed 2xx body and
returns exactly its normalization. -/
theorem getWeatherFromWttrIn_ok (city : String) (net : HttpResult WttrResponse)
    (d : WeatherData) (h : (getWeatherFromWttrIn city net).result = .ok d) :
    ∃ r, net = .ok r ∧ d = wttrSnapshot city r := by
  cases net with
  | ok r =>
    simp only [getWeatherFromWttrIn] at h
    simp at h
    exact ⟨r, rfl, h.symm⟩
  | httpError s => simp [getWeatherFromWttrIn] at h
  | timeout => simp [getWeatherFromWttrIn] at h

/-- A rational that is a whole number of degrees. -/
def isWholeDegree (q : ℚ) : Prop := ∃ n : ℤ, q = (n : ℚ)

/-- A rational that is a whole number of tenths (one decimal place). -/
def isTenthStep (q : ℚ) : Prop := ∃ n : ℤ, q = (n : ℚ) / 10

/-- The display precision every adapter must meet: whole-degree
temperatures, one-decimal wind speed. -/
def roundedSnapshot (d : WeatherData) : Prop :=
  isWholeDegree d.main.temp ∧ isWholeDegree d.main.feels_like ∧
  isWholeDegree d.main.temp_min ∧ isWholeDegree d.main.temp_max ∧
  isTenthStep d.wind.speed

/-- C8: every snapshot any of the three adapters successfully produces has
`temp`, `feels_like`, `temp_min` and `temp_max` rounded to whole degrees
and wind speed rounded to one decimal place. -/
theorem C8_uniform_rounding (p : ProviderId) (city : String) (env : Env)
    (net : NetworkWorld) (d : WeatherData)
    (h : (runAdapter p city env net).result = .ok d) :
    roundedSnapshot d := by
  cases p with
  | openWeather =>
    obtain ⟨r, -, rfl⟩ := getWeatherFromOpenWeather_ok env net.ow d h
    exact ⟨⟨_, rfl⟩, ⟨_, rfl⟩, ⟨_, rfl⟩, ⟨_, rfl⟩, ⟨_, rfl⟩⟩
  | weatherAPI =>
    obtain ⟨r, -, rfl⟩ := getWeatherFromWeatherAPI_ok env net.wa d h
    exact ⟨⟨_, rfl⟩, ⟨_, rfl⟩, ⟨_, rfl⟩, ⟨_, rfl⟩, ⟨_, rfl⟩⟩
  | wttrIn =>
    obtain ⟨r, -, rfl⟩ := getWeatherFromWttrIn_ok city net.wttr d h
    exact ⟨⟨_, rfl⟩, ⟨_, rfl⟩, ⟨_, rfl⟩, ⟨_, rfl⟩, ⟨_, rfl⟩⟩

/-- C8 witness: the OpenWeatherMap adapter applied to the sample payload
yields a snapshot meeting the uniform precision. -/
theorem C8_uniform_rounding_witness :
    (runAdapter .openWeather "London" bothKeys owOnlyNet).result
      = .ok (owSnapshot sampleOW) ∧
    roundedSnapshot (owSnapshot sampleOW) :=
  ⟨rfl, C8_uniform_rounding .openWeather "London" bothKeys owOnlyNet
    (owSnapshot sampleOW) rfl⟩

/-- C9: each adapter copies the upstream humidity value into the snapshot
unchanged (for wttr.in, after the `|| 0` default), with no clamping or
[0,100] check anywhere. -/
theorem C9_humidity_passthrough (env : Env) (city : String) :
    (∀ (r : OWResponse) (d : WeatherData),
      (getWeatherFromOpenWeather env (.ok r)).result = .ok d →
        d.main.humidity = r.humidity) ∧
    (∀ (r : WAResponse) (d : WeatherData),
      (getWeatherFromWeatherAPI env (.ok r)).result = .ok d →
        d.main.humidity = r.humidity) ∧
    (∀ (r : WttrResponse) (d : WeatherData),
      (getWeatherFromWttrIn city (.ok r)).result = .ok d →
        d.main.humidity = r.humidity.getD 0) := by
  refine ⟨?_, ?_, ?_⟩
  · intro r d h
    obtain ⟨r', hr, rfl⟩ := getWeatherFromOpenWeather_ok env (.ok r) d h
    cases hr
    rfl
  · intro r d h
    obtain ⟨r', hr, rfl⟩ := getWeatherFromWeatherAPI_ok env (.ok r) d h
    cases hr
    rfl
  · intro r d h
    obtain ⟨r', hr, rfl⟩ := getWeatherFromWttrIn_ok city (.ok r) d h
    cases hr
    rfl

/-- C9 witness: an upstream humidity of 150 — outside [0,100] — flows
through the OpenWeatherMap adapter into the snapshot unmodified. -/
theorem C9_humidity_passthrough_witness :
    (getWeatherFromOpenWeather bothKeys (.ok sampleOW)).result
      = .ok (owSnapshot sampleOW) ∧
    sampleOW.humidity = 150 ∧
    (owSnapshot sampleOW).main.humidity = 150 := by
  refine ⟨rfl, rfl, ?_⟩
  rw [(C9_humidity_passthrough bothKeys "London").1 sampleOW (owSnapshot sampleOW) rfl]
  rfl

/-- The invoked-adapter list of the handler is empty or comes from one run of
the fallback loop over `apis`. -/
theorem GET_invoked_cases (city : Option String) (now nowAtSet : ℤ)
    (env : Env) (net : NetworkWorld) (cache : Cache) :
    (GET city now nowAtSet env net cache).providersInvoked = [] ∨
    ∃ c : String, (GET city now nowAtSet env net cache).providersInvoked
      = (tryAdapters c env net apis).2 := by
  rcases city with _ | c
  · exact Or.inl rfl
  · by_cases hc : c = ""
    · subst hc
      exact Or.inl (by simp [GET])
    · cases hcache : cache ("weather_" ++ c) with
      | none =>
        cases htry : (tryAdapters c env net apis).1 with
        | none => exact Or.inr ⟨c, by simp [GET, hc, hcache, htry]⟩
        | some d => exact Or.inr ⟨c, by simp [GET, hc, hcache, htry]⟩
      | some entry =>
        by_cases hfresh : now - entry.timestamp < CACHE_DURATION
        · exact Or.inl (by simp [GET, hc, hcache, hfresh])
        · cases htry : (tryAdapters c env net apis).1 with
          | none => exact Or.inr ⟨c, by simp [GET, hc, hcache, hfresh, htry]⟩
          | some d => exact Or.inr ⟨c, by simp [GET, hc, hcache, hfresh, htry]⟩

/-- C10: the fallback chain the handler iterates is exactly
OpenWeatherMap then wttr.in, so no request ever invokes the WeatherAPI
adapter, although it is defined. -/
theorem C10_two_adapter_chain (city : Option String) (now nowAtSet : ℤ)
    (env : Env) (net : NetworkWorld) (cache : Cache) :
    apis = [ProviderId.openWeather, ProviderId.wttrIn] ∧
    ProviderId.weatherAPI ∉ (GET city now nowAtSet env net cache).providersInvoked := by
  refine ⟨rfl, ?_⟩
  rcases GET_invoked_cases city now nowAtSet env net cache with h | ⟨c, h⟩
  · simp [h]
  · rw [h]
    intro hmem
    have hmem' := tryAdapters_invoked_mem c env net apis _ hmem
    simp [apis] at hmem'

end Weather
